import Mathlib

/-!
The command `rosa list idps` and the OIDC-config validation contract

A shallow embedding of `cmd/list/idp/cmd.go` (functions `run` and `getAuthURL`).
Go strings are modelled by Lean strings, `fmt.Sprintf` with `%s` verbs by
concatenation, and the effects of `run` (reporter calls, the remote fetch, the
serializer, the tab writer, `os.Exit`) by an explicit trace of events together
with the exit code.
-/

namespace Rosa

/-! ## Go standard library: `strings.Index` and `strings.Replace(_, _, _, 1)` -/

/-- Leftmost position at which `substr` occurs in `s` (`strings.Index`); `none`
stands for Go's `-1`. Go compares bytes; on text in UTF-8 the leftmost match
of the characters is the leftmost match of the bytes. -/
def stringsIndex (s substr : List Char) : Option Nat :=
  if substr.isPrefixOf s then some 0
  else
    match s with
    | [] => none
    | _ :: t => (stringsIndex t substr).map (· + 1)

/-- The call `strings.Replace(s, old, new, 1)` on the characters of the strings:
`s` is returned as it is when `old == new` or `old` does not occur, otherwise
the leftmost occurrence `s[j : j+len(old)]` is replaced by `new`. -/
def stringsReplaceOne (s old new : List Char) : List Char :=
  if old = new then s
  else
    match stringsIndex s old with
    | none => s
    | some j => s.take j ++ new ++ s.drop (j + old.length)

/-- The call `strings.Replace(s, old, new, 1)` on strings. -/
def stringsReplace1 (s old new : String) : String :=
  String.mk (stringsReplaceOne s.data old.data new.data)

/-! ## Data model -/

/-- The part of `cmv1.Cluster` read by the command: `State()`, `ID()` and
`Console().URL()`. -/
structure Cluster where
  state : String
  id : String
  consoleURL : String
deriving DecidableEq, Repr

/-- The constant `cmv1.ClusterStateReady` of the OCM SDK. -/
def ClusterStateReady : String := "ready"

/-- The part of `cmv1.IdentityProvider` read by the command: `Name()` and the
SDK type tag that `ocm.IdentityProviderType` inspects. -/
structure IdentityProvider where
  name : String
  type : String
deriving DecidableEq, Repr

/-- The two members of package `pkg/ocm` used by the command, taken as
parameters: the constant `ocm.HTPasswdIDPType` and the function
`ocm.IdentityProviderType`. -/
structure OcmPkg where
  HTPasswdIDPType : String
  IdentityProviderType : IdentityProvider → String

/-- Function `getAuthURL` of `cmd/list/idp/cmd.go`. -/
def getAuthURL (o : OcmPkg) (cluster : Cluster) (idpName idpType : String) : String :=
  if idpType = o.HTPasswdIDPType then ""
  else
    let oauthURL := stringsReplace1 cluster.consoleURL "console-openshift-console" "oauth-openshift"
    oauthURL ++ "/oauth2callback/" ++ idpName

/-- A package `ocm` for examples: the HTPasswd constant with the types of the
SDK mapped to their display names. -/
def sampleOcm : OcmPkg where
  HTPasswdIDPType := "HTPasswd"
  IdentityProviderType := fun idp =>
    if idp.type = "HTPasswdIdentityProvider" then "HTPasswd"
    else if idp.type = "GithubIdentityProvider" then "GitHub"
    else if idp.type = "GoogleIdentityProvider" then "Google"
    else ""

/-! ## The command `list idps` -/

/-- What `run` observably does, in order. -/
inductive Event where
  /-- The call `r.Reporter.Errorf` with the formatted message. -/
  | errorf (msg : String)
  /-- The call `r.Reporter.Debugf` with the formatted message. -/
  | debugf (msg : String)
  /-- The call `r.Reporter.Infof` with the formatted message. -/
  | infof (msg : String)
  /-- The call `r.OCMClient.GetIdentityProviders` with the cluster ID. -/
  | getIdentityProviders (clusterID : String)
  /-- The call `output.Print` with its argument. -/
  | outputPrint (idps : List IdentityProvider)
  /-- One `fmt.Fprintf(writer, ...)` with the formatted text. -/
  | fprintf (text : String)
  /-- The call `writer.Flush()`. -/
  | flush
deriving DecidableEq, Repr

/-- What `run` reads from its surroundings: the results of `r.GetClusterKey()`
and `r.FetchCluster()`, the behaviour of the remote call
`r.OCMClient.GetIdentityProviders` (an error is its message), the value of
`output.HasFlag()` and the behaviour of `output.Print` (`some` error, or
`none` for `nil`). -/
structure Runtime where
  clusterKey : String
  cluster : Cluster
  GetIdentityProviders : String → Except String (List IdentityProvider)
  HasFlag : Bool
  Print : List IdentityProvider → Option String

/-- The result of one execution of `run`: the events in order, and the code
passed to `os.Exit`, or `none` when `run` returns to its caller. -/
structure Result where
  trace : List Event
  exit : Option Nat
deriving DecidableEq, Repr

/-- The header line written by `run` for the list `idps`. -/
def tableHeader (o : OcmPkg) (idps : List IdentityProvider) : String :=
  if idps.length = 1 ∧ (idps[0]?).map o.IdentityProviderType = some o.HTPasswdIDPType then
    "NAME\t\tTYPE\n"
  else
    "NAME\t\tTYPE\t\tAUTH URL\n"

/-- The line written by the loop body of `run` for one identity provider. -/
def tableRow (o : OcmPkg) (cluster : Cluster) (idp : IdentityProvider) : String :=
  let idpType := o.IdentityProviderType idp
  idp.name ++ "\t\t" ++ idpType ++ "\t\t" ++ getAuthURL o cluster idp.name idpType ++ "\n"

/-- Function `run` of `cmd/list/idp/cmd.go`, from the point where the cluster
key and the cluster have been obtained. Each `os.Exit` ends the trace; the last
branch falls off the end of the function after `writer.Flush()`. -/
def run (o : OcmPkg) (r : Runtime) : Result :=
  if r.cluster.state ≠ ClusterStateReady then
    { trace := [.errorf ("Cluster '" ++ r.clusterKey ++ "' is not yet ready")], exit := some 1 }
  else
    let loading : List Event :=
      [.debugf ("Loading identity providers for cluster '" ++ r.clusterKey ++ "'"),
       .getIdentityProviders r.cluster.id]
    match r.GetIdentityProviders r.cluster.id with
    | .error err =>
      { trace := loading ++
          [.errorf ("Failed to get identity providers for cluster '" ++ r.clusterKey ++ "': " ++ err)],
        exit := some 1 }
    | .ok idps =>
      if r.HasFlag then
        match r.Print idps with
        | some err => { trace := loading ++ [.outputPrint idps, .errorf err], exit := some 1 }
        | none => { trace := loading ++ [.outputPrint idps], exit := some 0 }
      else if idps.length = 0 then
        { trace := loading ++
            [.infof ("There are no identity providers configured for cluster '" ++ r.clusterKey ++ "'")],
          exit := some 0 }
      else
        { trace := loading ++ [.fprintf (tableHeader o idps)] ++
            idps.map (fun idp => .fprintf (tableRow o r.cluster idp)) ++ [.flush],
          exit := none }

/-- The exit status of the process for a result of `run`: the code given to
`os.Exit`, and 0 when `run` returned. `run` is registered as the `Run` field
of the cobra command, which has no error to hand back, so a return from it
lets the program end normally. -/
def exitStatus (res : Result) : Nat :=
  res.exit.getD 0

/-- The texts handed to the tab writer, in order. -/
def written : List Event → List String
  | [] => []
  | .fprintf text :: es => text :: written es
  | _ :: es => written es

/-- Whether the event is a call of the remote fetch. -/
def Event.isFetch : Event → Bool
  | .getIdentityProviders _ => true
  | _ => false

/-- Whether the event is a call of the structured serializer. -/
def Event.isPrint : Event → Bool
  | .outputPrint _ => true
  | _ => false

/-- Whether the event belongs to the tab writer (a write or the flush). -/
def Event.isTable : Event → Bool
  | .fprintf _ => true
  | .flush => true
  | _ => false

/-- Whether the event is an info message of the reporter. -/
def Event.isInfo : Event → Bool
  | .infof _ => true
  | _ => false

/-- A runtime for examples. -/
def sampleRuntime (state : String) (idps : List IdentityProvider) (flag : Bool) : Runtime where
  clusterKey := "mycluster"
  cluster := { state := state, id := "c1", consoleURL := "https://console-openshift-console.foo" }
  GetIdentityProviders := fun _ => .ok idps
  HasFlag := flag
  Print := fun _ => none

/-- A runtime for examples whose remote fetch fails with the error `err`. -/
def failingRuntime (err : String) : Runtime where
  clusterKey := "mycluster"
  cluster := { state := "ready", id := "c1", consoleURL := "https://console-openshift-console.foo" }
  GetIdentityProviders := fun _ => .error err
  HasFlag := false
  Print := fun _ => none

/-- The string `s` contains `sub` (`strings.Contains`, Gomega's
`ContainSubstring`). -/
def containsSubstring (s sub : String) : Prop :=
  sub.data <:+: s.data

/-! ## The command `create oidc-config` -/

/-- The flags of `create oidc-config` exercised by the end-to-end test:
`--prefix` and `--installer-role-arn` (empty when absent), `--managed` (true
unless `--managed=false` is given) and `--raw-files`. -/
structure CreateOIDCConfigArgs where
  userPrefix : String
  installerRoleArn : String
  managed : Bool
  rawFiles : Bool
deriving DecidableEq, Repr

/-- What the end-to-end test observes of one invocation: the exit code, the
text printed, and the number of calls made to the remote service. -/
structure CommandResult where
  exitCode : Nat
  output : String
  remoteCalls : Nat
deriving DecidableEq, Repr

/-- Modelled from the spec: the flag validation of `create oidc-config` in auto
mode, whose source file is not among the sources at hand. The messages are the
ones the end-to-end test expects. The spec lists the rules without an order
between them and asks for the message of each broken rule, so each documented
rule that the flags break contributes its message: a prefix or an installer
role ARN or raw files together with a managed configuration, and a prefix of
more than 15 characters. -/
def oidcConfigViolations (args : CreateOIDCConfigArgs) : List String :=
  (if args.managed ∧ args.userPrefix ≠ "" then
      ["prefix param is not supported for managed OIDC config"] else []) ++
  (if args.managed ∧ args.installerRoleArn ≠ "" then
      ["role-arn param is not supported for managed OIDC config"] else []) ++
  (if args.managed ∧ args.rawFiles then
      ["--raw-files param is not supported alongside --mode param"] else []) ++
  (if 15 < args.userPrefix.length then
      ["length of prefix is limited to 15 characters"] else [])

/-- Modelled from the spec: `create oidc-config --mode auto`, whose source file
is not among the sources at hand. The flags are validated before the remote
call: a violation gives a descriptive error and a non-zero exit without
contacting the remote service, and otherwise the remote service is called once
and the confirmation carries the ARN it returned. -/
def createOIDCConfigAuto (remoteARN : String) (args : CreateOIDCConfigArgs) : CommandResult :=
  let violations := oidcConfigViolations args
  if violations = [] then
    { exitCode := 0, output := "Created OIDC provider with ARN " ++ remoteARN ++ "\n",
      remoteCalls := 1 }
  else
    { exitCode := 1, output := violations.foldr (fun msg rest => msg ++ "\n" ++ rest) "",
      remoteCalls := 0 }

/-! ## Lemmas on `strings.Index` and `strings.Replace` -/

theorem stringsIndex_nil_left (s : List Char) : stringsIndex s [] = some 0 := by
  unfold stringsIndex
  simp

theorem stringsIndex_cons_skip (c : Char) (s old : List Char)
    (h : ¬ old <+: c :: s) :
    stringsIndex (c :: s) old = (stringsIndex s old).map (· + 1) := by
  rw [stringsIndex]
  have h1 : old.isPrefixOf (c :: s) = false := by
    rw [Bool.eq_false_iff]
    intro h2
    exact h (List.isPrefixOf_iff_prefix.mp h2)
  simp [h1]

theorem stringsIndex_at_start (s old : List Char) (h : old <+: s) :
    stringsIndex s old = some 0 := by
  unfold stringsIndex
  have h1 : old.isPrefixOf s = true := List.isPrefixOf_iff_prefix.mpr h
  simp [h1]

/-- When no occurrence of `old` in `p ++ old ++ s` starts before the end of
`p`, `strings.Index` returns the length of `p`. -/
theorem stringsIndex_first (old s : List Char) :
    ∀ p : List Char,
      (∀ q r : List Char, q ++ old ++ r = p ++ old ++ s → p.length ≤ q.length) →
      stringsIndex (p ++ old ++ s) old = some p.length := by
  intro p
  induction p with
  | nil =>
    intro _
    exact stringsIndex_at_start _ _ ⟨s, by simp⟩
  | cons c p ih =>
    intro h
    have hnp : ¬ old <+: c :: (p ++ old ++ s) := by
      rintro ⟨r, hr⟩
      have h0 := h [] r (by simpa using hr)
      simp at h0
    have hrec : ∀ q r : List Char, q ++ old ++ r = p ++ old ++ s → p.length ≤ q.length := by
      intro q r hqr
      have h1 := h (c :: q) r (by simp [hqr])
      simpa using h1
    have hcons : c :: p ++ old ++ s = c :: (p ++ old ++ s) := by simp
    rw [hcons, stringsIndex_cons_skip c _ old hnp, ih hrec]
    simp

/-- When `old` does not occur in `s`, `strings.Index` finds nothing. -/
theorem stringsIndex_none (old : List Char) :
    ∀ s : List Char, ¬ old <:+: s → stringsIndex s old = none := by
  intro s
  induction s with
  | nil =>
    intro h
    unfold stringsIndex
    have h1 : old.isPrefixOf [] = false := by
      rw [Bool.eq_false_iff]
      intro h2
      exact h (List.isPrefixOf_iff_prefix.mp h2).isInfix
    simp [h1]
  | cons c s ih =>
    intro h
    have hnp : ¬ old <+: c :: s := fun hp => h hp.isInfix
    have hrec : ¬ old <:+: s := by
      rintro ⟨a, b, hab⟩
      exact h ⟨c :: a, b, by simp [← hab]⟩
    rw [stringsIndex_cons_skip c s old hnp, ih hrec]
    rfl

/-- A check of finitely many positions shows that `old` first occurs in
`p ++ old ++ s` at the end of `p`. -/
theorem first_occurrence_of_check (old s p : List Char)
    (h : ∀ k, k < p.length → ¬ old <+: (p ++ old ++ s).drop k) :
    ∀ q r : List Char, q ++ old ++ r = p ++ old ++ s → p.length ≤ q.length := by
  intro q r hqr
  by_contra hlt
  push_neg at hlt
  apply h q.length hlt
  rw [← hqr]
  refine ⟨r, ?_⟩
  simp [List.append_assoc]

theorem stringsReplaceOne_first (old new s p : List Char) (hne : old ≠ new)
    (h : ∀ q r : List Char, q ++ old ++ r = p ++ old ++ s → p.length ≤ q.length) :
    stringsReplaceOne (p ++ old ++ s) old new = p ++ new ++ s := by
  unfold stringsReplaceOne
  rw [if_neg hne, stringsIndex_first old s p h]
  simp [List.append_assoc, List.take_append_eq_append_take, List.drop_append_eq_append_drop]

theorem stringsReplaceOne_absent (old new s : List Char) (h : ¬ old <:+: s) :
    stringsReplaceOne s old new = s := by
  unfold stringsReplaceOne
  split
  · rfl
  · rw [stringsIndex_none old s h]

theorem stringsReplace1_first (s old new p : String) (hne : old ≠ new)
    (h : ∀ q r : String, q ++ old ++ r = p ++ old ++ s → p.length ≤ q.length) :
    stringsReplace1 (p ++ old ++ s) old new = p ++ new ++ s := by
  have hne2 : old.data ≠ new.data := fun hd => hne (String.ext hd)
  have h2 : ∀ q r : List Char,
      q ++ old.data ++ r = p.data ++ old.data ++ s.data → p.data.length ≤ q.length := by
    intro q r hqr
    have h3 := h (String.mk q) (String.mk r)
      (String.ext (by simp only [String.data_append]; exact hqr))
    exact h3
  apply String.ext
  simp only [stringsReplace1, String.data_append]
  exact stringsReplaceOne_first old.data new.data s.data p.data hne2 h2

theorem stringsReplace1_absent (s old new : String) (h : ¬ old.data <:+: s.data) :
    stringsReplace1 s old new = s := by
  apply String.ext
  simp only [stringsReplace1]
  exact stringsReplaceOne_absent old.data new.data s.data h

/-- A check of finitely many positions, for strings. -/
theorem first_occurrence_string (old s p : String)
    (h : ∀ k, k < p.data.length → ¬ old.data <+: (p.data ++ old.data ++ s.data).drop k) :
    ∀ q r : String, q ++ old ++ r = p ++ old ++ s → p.length ≤ q.length := by
  intro q r hqr
  have h1 : q.data ++ old.data ++ r.data = p.data ++ old.data ++ s.data := by
    have := congrArg String.data hqr
    simpa using this
  exact first_occurrence_of_check old.data s.data p.data h q.data r.data h1

/-! ## Lemmas on `getAuthURL` and `run` -/

theorem getAuthURL_htpasswd (o : OcmPkg) (c : Cluster) (n : String) :
    getAuthURL o c n o.HTPasswdIDPType = "" := by
  simp [getAuthURL]

theorem getAuthURL_other (o : OcmPkg) (c : Cluster) (n t : String) (ht : t ≠ o.HTPasswdIDPType) :
    getAuthURL o c n t =
      stringsReplace1 c.consoleURL "console-openshift-console" "oauth-openshift" ++
        "/oauth2callback/" ++ n := by
  simp [getAuthURL, ht]

theorem getAuthURL_eq_empty_iff (o : OcmPkg) (c : Cluster) (n t : String) :
    getAuthURL o c n t = "" ↔ t = o.HTPasswdIDPType := by
  constructor
  · intro h
    by_contra ht
    rw [getAuthURL_other o c n t ht] at h
    have hl := congrArg String.length h
    rw [String.length_append, String.length_append] at hl
    have h16 : "/oauth2callback/".length = 16 := by decide
    have h0 : "".length = 0 := by decide
    omega
  · rintro rfl
    exact getAuthURL_htpasswd o c n

theorem getAuthURL_of_first (o : OcmPkg) (c : Cluster) (n t p s : String)
    (ht : t ≠ o.HTPasswdIDPType)
    (hc : c.consoleURL = p ++ "console-openshift-console" ++ s)
    (hfirst : ∀ q r : String,
      q ++ "console-openshift-console" ++ r = c.consoleURL → p.length ≤ q.length) :
    getAuthURL o c n t = p ++ "oauth-openshift" ++ s ++ "/oauth2callback/" ++ n := by
  rw [getAuthURL_other o c n t ht, hc]
  rw [stringsReplace1_first s _ _ p (by decide) (by rw [← hc]; exact hfirst)]

theorem written_append (xs ys : List Event) : written (xs ++ ys) = written xs ++ written ys := by
  induction xs with
  | nil => rfl
  | cons e es ih => cases e <;> simp [written, ih]

theorem written_map_fprintf (f : IdentityProvider → String) (idps : List IdentityProvider) :
    written (idps.map (fun idp => Event.fprintf (f idp))) = idps.map f := by
  induction idps with
  | nil => rfl
  | cons i is ih => simp [written, ih]

/-- The result of `run` in table mode on a non-empty list. -/
theorem run_table (o : OcmPkg) (r : Runtime) (idps : List IdentityProvider)
    (hready : r.cluster.state = ClusterStateReady)
    (hfetch : r.GetIdentityProviders r.cluster.id = .ok idps)
    (hflag : r.HasFlag = false) (hne : idps ≠ []) :
    run o r =
      { trace :=
          [.debugf ("Loading identity providers for cluster '" ++ r.clusterKey ++ "'"),
           .getIdentityProviders r.cluster.id] ++ [.fprintf (tableHeader o idps)] ++
            idps.map (fun idp => .fprintf (tableRow o r.cluster idp)) ++ [.flush],
        exit := none } := by
  have hlen : idps.length ≠ 0 := by
    intro h0
    exact hne (List.length_eq_zero.mp h0)
  simp [run, hready, hfetch, hflag, hlen]

theorem written_run_table (o : OcmPkg) (r : Runtime) (idps : List IdentityProvider)
    (hready : r.cluster.state = ClusterStateReady)
    (hfetch : r.GetIdentityProviders r.cluster.id = .ok idps)
    (hflag : r.HasFlag = false) (hne : idps ≠ []) :
    written (run o r).trace = tableHeader o idps :: idps.map (tableRow o r.cluster) := by
  rw [run_table o r idps hready hfetch hflag hne]
  show written (_ ++ _ ++ _ ++ _) = _
  rw [written_append, written_append, written_append, written_map_fprintf]
  simp [written]

theorem tableHeader_two_iff (o : OcmPkg) (idps : List IdentityProvider) :
    tableHeader o idps = "NAME\t\tTYPE\n" ↔
      ∃ idp, idps = [idp] ∧ o.IdentityProviderType idp = o.HTPasswdIDPType := by
  unfold tableHeader
  split
  · rename_i h
    obtain ⟨h1, h2⟩ := h
    obtain ⟨idp, rfl⟩ := List.length_eq_one.mp h1
    simp at h2
    simp [h2]
  · rename_i h
    constructor
    · intro h2
      exact absurd h2 (by decide)
    · rintro ⟨idp, rfl, h3⟩
      exact absurd ⟨rfl, by simp [h3]⟩ h

theorem tableHeader_three_iff (o : OcmPkg) (idps : List IdentityProvider) :
    tableHeader o idps = "NAME\t\tTYPE\t\tAUTH URL\n" ↔
      ¬ ∃ idp, idps = [idp] ∧ o.IdentityProviderType idp = o.HTPasswdIDPType := by
  rw [← tableHeader_two_iff]
  unfold tableHeader
  split
  · simp
  · simp

theorem foldr_lines_suffix (msgs : List String) (z : String) :
    ∃ pre : String, msgs.foldr (fun msg rest => msg ++ "\n" ++ rest) z = pre ++ z := by
  induction msgs with
  | nil => exact ⟨"", by simp⟩
  | cons m ms ih =>
    obtain ⟨pre, hpre⟩ := ih
    refine ⟨m ++ "\n" ++ pre, ?_⟩
    rw [List.foldr_cons, hpre]
    simp only [String.append_assoc]

/-! ## The claims -/

/-- C1: for every cluster whose state is not `ready`, `run` reports the error
`Cluster '<key>' is not yet ready` and nothing else, ends with exit code 1, and
its trace holds no call of `GetIdentityProviders`, of the serializer or of the
table writer. -/
theorem run_not_ready (o : OcmPkg) (r : Runtime)
    (h : r.cluster.state ≠ ClusterStateReady) :
    run o r =
        { trace := [.errorf ("Cluster '" ++ r.clusterKey ++ "' is not yet ready")],
          exit := some 1 } ∧
      exitStatus (run o r) = 1 ∧
      ∀ e ∈ (run o r).trace, e.isFetch = false ∧ e.isPrint = false ∧ e.isTable = false := by
  have hrun : run o r =
      { trace := [.errorf ("Cluster '" ++ r.clusterKey ++ "' is not yet ready")],
        exit := some 1 } := by
    simp [run, h]
  rw [hrun]
  refine ⟨rfl, rfl, ?_⟩
  intro e he
  simp at he
  subst he
  exact ⟨rfl, rfl, rfl⟩

theorem run_not_ready_witness :
    (sampleRuntime "installing" [] false).cluster.state ≠ ClusterStateReady ∧
      run sampleOcm (sampleRuntime "installing" [] false) =
        { trace := [.errorf "Cluster 'mycluster' is not yet ready"], exit := some 1 } :=
  ⟨by decide, (run_not_ready sampleOcm (sampleRuntime "installing" [] false) (by decide)).1⟩

/-- C2: in table mode on a non-empty list, the first text handed to the table
writer is the two-label header `NAME`, `TYPE` if and only if the list has
exactly one entry and that entry is of the HTPasswd type, and it is the
three-label header `NAME`, `TYPE`, `AUTH URL` in every other case. -/
theorem run_header_choice (o : OcmPkg) (r : Runtime) (idps : List IdentityProvider)
    (hready : r.cluster.state = ClusterStateReady)
    (hfetch : r.GetIdentityProviders r.cluster.id = .ok idps)
    (hflag : r.HasFlag = false) (hne : idps ≠ []) :
    ((written (run o r).trace).head? = some "NAME\t\tTYPE\n" ↔
        ∃ idp, idps = [idp] ∧ o.IdentityProviderType idp = o.HTPasswdIDPType) ∧
      ((written (run o r).trace).head? = some "NAME\t\tTYPE\t\tAUTH URL\n" ↔
        ¬ ∃ idp, idps = [idp] ∧ o.IdentityProviderType idp = o.HTPasswdIDPType) := by
  rw [written_run_table o r idps hready hfetch hflag hne]
  simp only [List.head?_cons, Option.some.injEq]
  exact ⟨tableHeader_two_iff o idps, tableHeader_three_iff o idps⟩

theorem run_header_choice_witness :
    (sampleRuntime "ready" [⟨"admin", "HTPasswdIdentityProvider"⟩] false).HasFlag = false ∧
      (written (run sampleOcm
        (sampleRuntime "ready" [⟨"admin", "HTPasswdIdentityProvider"⟩] false)).trace).head? =
        some "NAME\t\tTYPE\n" :=
  ⟨rfl, (run_header_choice sampleOcm (sampleRuntime "ready" [⟨"admin", "HTPasswdIdentityProvider"⟩] false)
    [⟨"admin", "HTPasswdIdentityProvider"⟩] (by decide) rfl rfl (by decide)).1.mpr
    ⟨⟨"admin", "HTPasswdIdentityProvider"⟩, rfl, by decide⟩⟩

/-- C3: for a type other than HTPasswd and a console URL
`p ++ "console-openshift-console" ++ s` in which no occurrence of the segment
starts before the end of `p`, `getAuthURL` returns
`p ++ "oauth-openshift" ++ s ++ "/oauth2callback/" ++ n`; in particular the
console URL `https://console-openshift-console.foo` with the name `bar` gives
`https://oauth-openshift.foo/oauth2callback/bar`. -/
theorem getAuthURL_console (o : OcmPkg) :
    (∀ (c : Cluster) (n t p s : String),
        t ≠ o.HTPasswdIDPType →
        c.consoleURL = p ++ "console-openshift-console" ++ s →
        (∀ q r : String,
          q ++ "console-openshift-console" ++ r = c.consoleURL → p.length ≤ q.length) →
        getAuthURL o c n t = p ++ "oauth-openshift" ++ s ++ "/oauth2callback/" ++ n) ∧
      (∀ (c : Cluster) (t : String),
        t ≠ o.HTPasswdIDPType →
        c.consoleURL = "https://console-openshift-console.foo" →
        getAuthURL o c "bar" t = "https://oauth-openshift.foo/oauth2callback/bar") := by
  constructor
  · intro c n t p s ht hc hfirst
    exact getAuthURL_of_first o c n t p s ht hc hfirst
  · intro c t ht hc
    have hc2 : c.consoleURL = "https://" ++ "console-openshift-console" ++ ".foo" := by
      rw [hc]
      decide
    have hfirst : ∀ q r : String,
        q ++ "console-openshift-console" ++ r = c.consoleURL → ("https://" : String).length ≤ q.length := by
      rw [hc2]
      exact first_occurrence_string "console-openshift-console" ".foo" "https://" (by decide)
    rw [getAuthURL_of_first o c "bar" t "https://" ".foo" ht hc2 hfirst]
    decide

theorem getAuthURL_console_witness :
    getAuthURL sampleOcm ⟨"ready", "c1", "https://console-openshift-console.apps.example.com"⟩
        "github-1" "GitHub" =
      "https://" ++ "oauth-openshift" ++ ".apps.example.com" ++ "/oauth2callback/" ++ "github-1" :=
  (getAuthURL_console sampleOcm).1
    ⟨"ready", "c1", "https://console-openshift-console.apps.example.com"⟩
    "github-1" "GitHub" "https://" ".apps.example.com" (by decide) (by decide)
    (first_occurrence_string "console-openshift-console" ".apps.example.com" "https://"
      (by decide))

/-- C4: whatever the cluster and the provider name, `getAuthURL` returns the
empty string exactly when the provider type is the HTPasswd type: it is empty
for that type and non-empty for every other type. -/
theorem getAuthURL_empty_iff_htpasswd (o : OcmPkg) (c : Cluster) (n t : String) :
    getAuthURL o c n t = "" ↔ t = o.HTPasswdIDPType :=
  getAuthURL_eq_empty_iff o c n t

/-- C5: the exit status of `run` is 0 on success (cluster ready, fetch
succeeded and, in structured mode, serialization succeeded), the empty list
included; it is 1 when the cluster is not ready and when the fetch returns an
error; and on a fetch failure the trace holds, after the fetch, only the error
`Failed to get identity providers for cluster '<key>': <err>`, no serializer
call and no table writer call. -/
theorem run_exit_status (o : OcmPkg) (r : Runtime) :
    (∀ idps, r.cluster.state = ClusterStateReady →
        r.GetIdentityProviders r.cluster.id = .ok idps →
        (r.HasFlag = true → r.Print idps = none) →
        exitStatus (run o r) = 0) ∧
      (r.cluster.state = ClusterStateReady →
        r.GetIdentityProviders r.cluster.id = .ok [] →
        (r.HasFlag = true → r.Print [] = none) →
        (run o r).exit = some 0) ∧
      (r.cluster.state ≠ ClusterStateReady → (run o r).exit = some 1) ∧
      (∀ err, r.cluster.state = ClusterStateReady →
        r.GetIdentityProviders r.cluster.id = .error err →
        (run o r).exit = some 1 ∧
        (run o r).trace =
          [.debugf ("Loading identity providers for cluster '" ++ r.clusterKey ++ "'"),
           .getIdentityProviders r.cluster.id,
           .errorf ("Failed to get identity providers for cluster '" ++ r.clusterKey ++
             "': " ++ err)] ∧
        ∀ e ∈ (run o r).trace, e.isPrint = false ∧ e.isTable = false) := by
  refine ⟨?_, ?_, ?_, ?_⟩
  · intro idps hready hfetch hprint
    cases hflag : r.HasFlag with
    | true =>
      simp [run, hready, hfetch, hflag, hprint hflag, exitStatus]
    | false =>
      by_cases hlen : idps.length = 0
      · simp [run, hready, hfetch, hflag, hlen, exitStatus]
      · simp [run, hready, hfetch, hflag, hlen, exitStatus]
  · intro hready hfetch hprint
    cases hflag : r.HasFlag with
    | true => simp [run, hready, hfetch, hflag, hprint hflag]
    | false => simp [run, hready, hfetch, hflag]
  · intro hnot
    simp [run, hnot]
  · intro err hready hfetch
    have hrun : run o r =
        { trace :=
            [.debugf ("Loading identity providers for cluster '" ++ r.clusterKey ++ "'"),
             .getIdentityProviders r.cluster.id,
             .errorf ("Failed to get identity providers for cluster '" ++ r.clusterKey ++
               "': " ++ err)],
          exit := some 1 } := by
      simp [run, hready, hfetch]
    rw [hrun]
    refine ⟨rfl, rfl, ?_⟩
    intro e he
    simp at he
    rcases he with rfl | rfl | rfl <;> exact ⟨rfl, rfl⟩

theorem run_exit_status_witness :
    exitStatus (run sampleOcm (sampleRuntime "ready" [] false)) = 0 ∧
      exitStatus (run sampleOcm
        (sampleRuntime "ready" [⟨"gh", "GithubIdentityProvider"⟩] false)) = 0 ∧
      (run sampleOcm (sampleRuntime "hibernating" [] false)).exit = some 1 ∧
      (run sampleOcm (failingRuntime "timeout")).exit = some 1 :=
  ⟨(run_exit_status sampleOcm (sampleRuntime "ready" [] false)).1 [] (by decide) rfl
      (by decide),
    (run_exit_status sampleOcm
      (sampleRuntime "ready" [⟨"gh", "GithubIdentityProvider"⟩] false)).1
      [⟨"gh", "GithubIdentityProvider"⟩] (by decide) rfl (by decide),
    (run_exit_status sampleOcm (sampleRuntime "hibernating" [] false)).2.2.1 (by decide),
    ((run_exit_status sampleOcm (failingRuntime "timeout")).2.2.2 "timeout" (by decide)
      rfl).1⟩

/-- C6: with the output flag set, the cluster ready and the fetch successful,
`run` hands exactly the fetched list to the serializer, writes no table header
or row and no info message, and exits with 0 when the serializer succeeds and
with 1, after reporting the error, when it fails. -/
theorem run_structured (o : OcmPkg) (r : Runtime) (idps : List IdentityProvider)
    (hready : r.cluster.state = ClusterStateReady)
    (hfetch : r.GetIdentityProviders r.cluster.id = .ok idps)
    (hflag : r.HasFlag = true) :
    (r.Print idps = none →
        run o r =
          { trace :=
              [.debugf ("Loading identity providers for cluster '" ++ r.clusterKey ++ "'"),
               .getIdentityProviders r.cluster.id, .outputPrint idps],
            exit := some 0 }) ∧
      (∀ err, r.Print idps = some err →
        run o r =
          { trace :=
              [.debugf ("Loading identity providers for cluster '" ++ r.clusterKey ++ "'"),
               .getIdentityProviders r.cluster.id, .outputPrint idps, .errorf err],
            exit := some 1 }) ∧
      (run o r).trace.filter Event.isPrint = [.outputPrint idps] ∧
      written (run o r).trace = [] ∧
      ∀ e ∈ (run o r).trace, e.isTable = false ∧ e.isInfo = false := by
  cases hprint : r.Print idps with
  | none =>
    have hrun : run o r =
        { trace :=
            [.debugf ("Loading identity providers for cluster '" ++ r.clusterKey ++ "'"),
             .getIdentityProviders r.cluster.id, .outputPrint idps],
          exit := some 0 } := by
      simp [run, hready, hfetch, hflag, hprint]
    rw [hrun]
    refine ⟨fun _ => rfl, fun err herr => by simp at herr, ?_, rfl, ?_⟩
    · simp [List.filter, Event.isPrint]
    · intro e he
      simp at he
      rcases he with rfl | rfl | rfl <;> exact ⟨rfl, rfl⟩
  | some err0 =>
    have hrun : run o r =
        { trace :=
            [.debugf ("Loading identity providers for cluster '" ++ r.clusterKey ++ "'"),
             .getIdentityProviders r.cluster.id, .outputPrint idps, .errorf err0],
          exit := some 1 } := by
      simp [run, hready, hfetch, hflag, hprint]
    rw [hrun]
    refine ⟨fun h => by simp at h, ?_, ?_, rfl, ?_⟩
    · intro err herr
      simp at herr
      subst herr
      rfl
    · simp [List.filter, Event.isPrint]
    · intro e he
      simp at he
      rcases he with rfl | rfl | rfl | rfl <;> exact ⟨rfl, rfl⟩

theorem run_structured_witness :
    run sampleOcm (sampleRuntime "ready" [⟨"gh", "GithubIdentityProvider"⟩] true) =
      { trace :=
          [.debugf "Loading identity providers for cluster 'mycluster'",
           .getIdentityProviders "c1", .outputPrint [⟨"gh", "GithubIdentityProvider"⟩]],
        exit := some 0 } :=
  (run_structured sampleOcm (sampleRuntime "ready" [⟨"gh", "GithubIdentityProvider"⟩] true)
    [⟨"gh", "GithubIdentityProvider"⟩] (by decide) rfl rfl).1 rfl

/-- C7: in auto mode, every `create oidc-config` invocation whose prefix is
longer than 15 characters fails with a non-zero exit code and an output
containing `length of prefix is limited to 15 characters`, and makes no call to
the remote service. -/
theorem createOIDCConfigAuto_prefix_too_long (remoteARN : String) (args : CreateOIDCConfigArgs)
    (h : 15 < args.userPrefix.length) :
    (createOIDCConfigAuto remoteARN args).exitCode ≠ 0 ∧
      containsSubstring (createOIDCConfigAuto remoteARN args).output
        "length of prefix is limited to 15 characters" ∧
      (createOIDCConfigAuto remoteARN args).remoteCalls = 0 := by
  obtain ⟨front, hfront⟩ : ∃ front : List String,
      oidcConfigViolations args = front ++ ["length of prefix is limited to 15 characters"] := by
    unfold oidcConfigViolations
    rw [if_pos h]
    exact ⟨_, rfl⟩
  have hne : oidcConfigViolations args ≠ [] := by
    rw [hfront]
    simp
  have hres : createOIDCConfigAuto remoteARN args =
      { exitCode := 1,
        output := (oidcConfigViolations args).foldr (fun msg rest => msg ++ "\n" ++ rest) "",
        remoteCalls := 0 } := by
    simp [createOIDCConfigAuto, hne]
  rw [hres]
  refine ⟨by simp, ?_, rfl⟩
  show containsSubstring
    ((oidcConfigViolations args).foldr (fun msg rest => msg ++ "\n" ++ rest) "") _
  rw [hfront, List.foldr_append]
  obtain ⟨pre, hpre⟩ := foldr_lines_suffix front
    (List.foldr (fun msg rest => msg ++ "\n" ++ rest) ""
      ["length of prefix is limited to 15 characters"])
  rw [hpre]
  refine ⟨pre.data, "\n".data, ?_⟩
  simp [List.foldr, String.data_append]

theorem createOIDCConfigAuto_prefix_too_long_witness :
    15 < ("1234567890abcdef" : String).length ∧
      (createOIDCConfigAuto "arn" ⟨"1234567890abcdef", "", false, false⟩).exitCode ≠ 0 ∧
      containsSubstring (createOIDCConfigAuto "arn" ⟨"1234567890abcdef", "", false, false⟩).output
        "length of prefix is limited to 15 characters" ∧
      (createOIDCConfigAuto "arn" ⟨"1234567890abcdef", "", false, false⟩).remoteCalls = 0 :=
  ⟨by decide,
    createOIDCConfigAuto_prefix_too_long "arn" ⟨"1234567890abcdef", "", false, false⟩ (by decide)⟩

/-- C8: in table mode on a non-empty list, the texts handed to the table
writer are the header line followed by one row per identity provider, in the
order of the fetched list, the row of a provider being
`name ++ "\t\t" ++ type ++ "\t\t" ++ getAuthURL(cluster, name, type) ++ "\n"`;
on the empty list nothing is handed to the table writer and, after the debug
message and the fetch, only the info message `There are no identity providers
configured for cluster '<key>'` is reported. -/
theorem run_table_rows (o : OcmPkg) (r : Runtime) (idps : List IdentityProvider)
    (hready : r.cluster.state = ClusterStateReady)
    (hfetch : r.GetIdentityProviders r.cluster.id = .ok idps)
    (hflag : r.HasFlag = false) :
    (idps ≠ [] →
        written (run o r).trace =
          tableHeader o idps ::
            idps.map (fun idp =>
              idp.name ++ "\t\t" ++ o.IdentityProviderType idp ++ "\t\t" ++
                getAuthURL o r.cluster idp.name (o.IdentityProviderType idp) ++ "\n")) ∧
      (idps = [] →
        run o r =
            { trace :=
                [.debugf ("Loading identity providers for cluster '" ++ r.clusterKey ++ "'"),
                 .getIdentityProviders r.cluster.id,
                 .infof ("There are no identity providers configured for cluster '" ++
                   r.clusterKey ++ "'")],
              exit := some 0 } ∧
          written (run o r).trace = [] ∧
          ∀ e ∈ (run o r).trace, e.isTable = false) := by
  constructor
  · intro hne
    rw [written_run_table o r idps hready hfetch hflag hne]
    rfl
  · intro hnil
    subst hnil
    have hrun : run o r =
        { trace :=
            [.debugf ("Loading identity providers for cluster '" ++ r.clusterKey ++ "'"),
             .getIdentityProviders r.cluster.id,
             .infof ("There are no identity providers configured for cluster '" ++
               r.clusterKey ++ "'")],
          exit := some 0 } := by
      simp [run, hready, hfetch, hflag]
    rw [hrun]
    refine ⟨rfl, rfl, ?_⟩
    intro e he
    simp at he
    rcases he with rfl | rfl | rfl <;> rfl

theorem run_table_rows_witness :
    written (run sampleOcm (sampleRuntime "ready"
        [⟨"gh", "GithubIdentityProvider"⟩, ⟨"admin", "HTPasswdIdentityProvider"⟩] false)).trace =
      ["NAME\t\tTYPE\t\tAUTH URL\n",
       "gh\t\tGitHub\t\thttps://oauth-openshift.foo/oauth2callback/gh\n",
       "admin\t\tHTPasswd\t\t\n"] :=
  (run_table_rows sampleOcm (sampleRuntime "ready"
      [⟨"gh", "GithubIdentityProvider"⟩, ⟨"admin", "HTPasswdIdentityProvider"⟩] false)
    [⟨"gh", "GithubIdentityProvider"⟩, ⟨"admin", "HTPasswdIdentityProvider"⟩]
    (by decide) rfl rfl).1 (by decide)

/-- C9: for a type other than HTPasswd, `getAuthURL` rewrites the first
occurrence of `console-openshift-console` in the console URL and keeps what
follows it as it is, later occurrences included; a console URL without the
segment is kept unchanged and followed by `/oauth2callback/<name>`; the result
always ends with `/oauth2callback/<name>`; and it is the same for any two types
other than HTPasswd. -/
theorem getAuthURL_first_only (o : OcmPkg) (c : Cluster) (n : String) :
    (∀ t p s : String,
        t ≠ o.HTPasswdIDPType →
        c.consoleURL = p ++ "console-openshift-console" ++ s →
        (∀ q r : String,
          q ++ "console-openshift-console" ++ r = c.consoleURL → p.length ≤ q.length) →
        getAuthURL o c n t = p ++ "oauth-openshift" ++ s ++ "/oauth2callback/" ++ n) ∧
      (∀ t : String,
        t ≠ o.HTPasswdIDPType →
        ¬ containsSubstring c.consoleURL "console-openshift-console" →
        getAuthURL o c n t = c.consoleURL ++ "/oauth2callback/" ++ n) ∧
      (∀ t : String,
        t ≠ o.HTPasswdIDPType →
        ∃ front : String, getAuthURL o c n t = front ++ ("/oauth2callback/" ++ n)) ∧
      (∀ t u : String,
        t ≠ o.HTPasswdIDPType → u ≠ o.HTPasswdIDPType →
        getAuthURL o c n t = getAuthURL o c n u) := by
  refine ⟨?_, ?_, ?_, ?_⟩
  · intro t p s ht hc hfirst
    exact getAuthURL_of_first o c n t p s ht hc hfirst
  · intro t ht habsent
    rw [getAuthURL_other o c n t ht, stringsReplace1_absent _ _ _ habsent]
  · intro t ht
    refine ⟨stringsReplace1 c.consoleURL "console-openshift-console" "oauth-openshift", ?_⟩
    rw [getAuthURL_other o c n t ht, String.append_assoc]
  · intro t u ht hu
    rw [getAuthURL_other o c n t ht, getAuthURL_other o c n u hu]

theorem getAuthURL_first_only_witness :
    getAuthURL sampleOcm
          ⟨"ready", "c1", "https://console-openshift-console.console-openshift-console.foo"⟩
          "gh" "GitHub" =
        "https://" ++ "oauth-openshift" ++ ".console-openshift-console.foo" ++
          "/oauth2callback/" ++ "gh" ∧
      getAuthURL sampleOcm ⟨"ready", "c1", "https://example.com"⟩ "gh" "GitHub" =
        "https://example.com" ++ "/oauth2callback/" ++ "gh" :=
  ⟨(getAuthURL_first_only sampleOcm
      ⟨"ready", "c1", "https://console-openshift-console.console-openshift-console.foo"⟩
      "gh").1
    "GitHub" "https://" ".console-openshift-console.foo" (by decide) (by decide)
    (first_occurrence_string "console-openshift-console" ".console-openshift-console.foo"
      "https://" (by decide)),
   (getAuthURL_first_only sampleOcm ⟨"ready", "c1", "https://example.com"⟩ "gh").2.1
    "GitHub" (by decide) (by unfold containsSubstring; decide)⟩

/-- C10: in table mode on a non-empty list the header and the rows agree: when
the two-label header is written, the list has a single provider and its row
ends with the separator followed by an empty auth URL cell; when the
three-label header is written, the auth URL cell of a row is empty exactly
when the type of its provider is HTPasswd. -/
theorem run_header_rows_agree (o : OcmPkg) (r : Runtime) (idps : List IdentityProvider)
    (hready : r.cluster.state = ClusterStateReady)
    (hfetch : r.GetIdentityProviders r.cluster.id = .ok idps)
    (hflag : r.HasFlag = false) (hne : idps ≠ []) :
    ((written (run o r).trace).head? = some "NAME\t\tTYPE\n" →
        ∃ idp, idps = [idp] ∧
          getAuthURL o r.cluster idp.name (o.IdentityProviderType idp) = "" ∧
          (written (run o r).trace).tail =
            [idp.name ++ "\t\t" ++ o.IdentityProviderType idp ++ "\t\t" ++ "" ++ "\n"]) ∧
      ((written (run o r).trace).head? = some "NAME\t\tTYPE\t\tAUTH URL\n" →
        (written (run o r).trace).tail =
            idps.map (fun idp =>
              idp.name ++ "\t\t" ++ o.IdentityProviderType idp ++ "\t\t" ++
                getAuthURL o r.cluster idp.name (o.IdentityProviderType idp) ++ "\n") ∧
          ∀ idp ∈ idps,
            (getAuthURL o r.cluster idp.name (o.IdentityProviderType idp) = "" ↔
              o.IdentityProviderType idp = o.HTPasswdIDPType)) := by
  rw [written_run_table o r idps hready hfetch hflag hne]
  simp only [List.head?_cons, Option.some.injEq, List.tail_cons]
  constructor
  · intro hheader
    obtain ⟨idp, hidps, htype⟩ := (tableHeader_two_iff o idps).mp hheader
    subst hidps
    have hempty : getAuthURL o r.cluster idp.name (o.IdentityProviderType idp) = "" :=
      (getAuthURL_eq_empty_iff o r.cluster idp.name _).mpr htype
    refine ⟨idp, rfl, hempty, ?_⟩
    simp [tableRow, hempty]
  · intro _
    refine ⟨rfl, ?_⟩
    intro idp _
    exact getAuthURL_eq_empty_iff o r.cluster idp.name _

theorem run_header_rows_agree_witness :
    (written (run sampleOcm
        (sampleRuntime "ready" [⟨"admin", "HTPasswdIdentityProvider"⟩] false)).trace).tail =
      ["admin" ++ "\t\t" ++ "HTPasswd" ++ "\t\t" ++ "" ++ "\n"] := by
  obtain ⟨idp, hidp, _, htail⟩ :=
    (run_header_rows_agree sampleOcm
      (sampleRuntime "ready" [⟨"admin", "HTPasswdIdentityProvider"⟩] false)
      [⟨"admin", "HTPasswdIdentityProvider"⟩] (by decide) rfl rfl (by decide)).1 (by decide)
  have h1 : idp = ⟨"admin", "HTPasswdIdentityProvider"⟩ := by
    simpa using hidp.symm
  rw [htail, h1]
  rfl

end Rosa
